import Mathlib

/-!
Verification development for the bolson streaming JSON-to-Arrow-IPC
converter.  The definitions below are a shallow embedding of the C++
sources: machine integers become `Nat`, byte blobs become `List Nat`,
fallible calls return `Except`, and external collaborators (the Arrow
library, the illex TCP client, the Pulsar client, the Fletcher/OPAE
hardware stack) are passed in as explicit environment parameters so that
the embedded control flow is total and executable.
-/

namespace Bolson

/-- Error kinds of the program's status type.  The enumerators are taken
from the status header (`flitter` status enum) together with the
enumerators used by the newer bolson sources (`ArrowError`, `OpaeError`,
`FletcherError`). -/
inductive Error
  | GenericError
  | CLIError
  | PulsarError
  | IllexError
  | RapidJSONError
  | IOError
  | ArrowError
  | OpaeError
  | FletcherError
deriving DecidableEq

/-- Status values: `putong::Status` is either OK or an error kind with a
message. -/
inductive Status
  | ok
  | err (e : Error) (msg : String)
deriving DecidableEq

/-- Embeds `Status::ok()`. -/
def Status.isOk : Status → Bool
  | .ok => true
  | .err _ _ => false

/-- Inclusive range of sequence numbers (`illex::SeqRange`). -/
structure SeqRange where
  first : Nat
  last : Nat
deriving DecidableEq

/-- Arrow cell values used by this program: unsigned 64-bit numbers and
lists of them (the battery voltage column). -/
inductive ArrowValue
  | u64 (n : Nat)
  | u64list (ns : List Nat)
deriving DecidableEq

/-- The Arrow data types appearing in the program's schemas. -/
inductive ArrowType
  | uint64
  | listUint64
  | uint8
deriving DecidableEq

/-- One named column of a record batch. -/
structure ArrowColumn where
  name : String
  dtype : ArrowType
  values : List ArrowValue
deriving DecidableEq

/-- A columnar record batch with schema metadata. -/
structure RecordBatch where
  num_rows : Nat
  columns : List ArrowColumn
  metadata : List (String × String)
deriving DecidableEq

/-- A parsed batch tagged with its sequence range (`bolson::parse::ParsedBatch`). -/
structure ParsedBatch where
  batch : RecordBatch
  seq_range : SeqRange
deriving DecidableEq

/-- A resized batch: one piece of a parsed batch that should fit the IPC
budget (`bolson::convert` resized batches). -/
structure ResizedBatch where
  batch : RecordBatch
  seq_range : SeqRange
deriving DecidableEq

/-- A serialized batch: the Arrow IPC payload (`message`, a byte blob)
plus its sequence range (`bolson::convert::SerializedBatch`). -/
structure SerializedBatch where
  message : List Nat
  seq_range : SeqRange
deriving DecidableEq

/-- Embeds `Serializer::Serialize` from the convert serializer source.
The external call `arrow::ipc::SerializeRecordBatch(*batch.batch, opts)`
is the parameter `ser`; it may fail with an Arrow error message.  For
each input batch, on serialization failure the function returns an
`ArrowError`; if the serialized size exceeds `max_ipc_size` it returns a
`GenericError`; otherwise it appends the payload paired with the input
batch's `seq_range`.  The output is produced only when the whole loop
succeeds (the C++ writes `*out` after the loop). -/
def Serializer.Serialize (ser : RecordBatch → Except String (List Nat))
    (max_ipc_size : Nat) : List ResizedBatch → Except Status (List SerializedBatch)
  | [] => .ok []
  | batch :: rest =>
    match ser batch.batch with
    | .error m =>
      .error (.err .ArrowError ("Could not serialize batch: " ++ m))
    | .ok serialized =>
      if serialized.length > max_ipc_size then
        .error (.err .GenericError
          "Maximum IPC message size exceeded.Reduce max number of rows per batch.")
      else
        match Serializer.Serialize ser max_ipc_size rest with
        | .error s => .error s
        | .ok out => .ok ({ message := serialized, seq_range := batch.seq_range } :: out)

/-- Sub-commands of the application (`bolson::SubCommand`). -/
inductive SubCommand
  | NONE
  | FILE
  | STREAM
deriving DecidableEq

/-- The sub-programs `main` can call. -/
inductive Call
  | produceFromFile
  | produceFromStream
deriving DecidableEq

/-- Environment for `main`: the status produced by CLI parsing and the
statuses the two sub-programs would return in this run. -/
structure MainEnv where
  cliStatus : Status
  sub : SubCommand
  fileStatus : Status
  streamStatus : Status

/-- Result of a `main` run: which sub-programs were executed, the final
value of the `status` variable, and the process exit code. -/
structure MainResult where
  calls : List Call
  status : Status
  exitCode : Int
deriving DecidableEq

/-- Embeds the `case SubCommand::STREAM` arm of the switch in `main`:
run `ProduceFromStream` and store its status. -/
def runStreamCase (env : MainEnv) : List Call × Status :=
  ([Call.produceFromStream], env.streamStatus)

/-- Embeds the `case SubCommand::FILE` arm of the switch in `main`: run
`ProduceFromFile`, then — the arm has no `break` — fall through into the
`STREAM` arm, overwriting the status. -/
def runFileCase (env : MainEnv) : List Call × Status :=
  -- status = ProduceFromFile(opts.file) is assigned, then immediately
  -- overwritten by the fall-through into the STREAM arm.
  let streamPart := runStreamCase env
  (Call.produceFromFile :: streamPart.1, streamPart.2)

/-- Embeds the switch over `opts.sub` in `main`.  The `NONE` arm breaks
immediately, leaving the CLI status in place. -/
def subSwitch (env : MainEnv) : List Call × Status :=
  match env.sub with
  | .NONE => ([], env.cliStatus)
  | .FILE => runFileCase env
  | .STREAM => runStreamCase env

/-- Embeds `main`: parse the CLI; if that succeeded, dispatch on the
sub-command; log when the final status is not OK; and `return 0`
unconditionally (the last line of `main` is `return 0;`). -/
def mainRun (env : MainEnv) : MainResult :=
  if env.cliStatus.isOk then
    let dispatched := subSwitch env
    { calls := dispatched.1, status := dispatched.2, exitCode := 0 }
  else
    { calls := [], status := env.cliStatus, exitCode := 0 }

/-- Per-worker conversion statistics.  The five counters are the fields
read by `AggrStats`, `OutputStats` and `LogStats` in the stream source;
`status` is the per-worker conversion status carried by the stats
structure in `convert/stats.h` (`Status status = Status::OK();`). -/
structure ConversionStats where
  num_jsons : Nat
  num_ipc : Nat
  convert_time : ℚ
  thread_time : ℚ
  total_ipc_bytes : Nat
  status : Status
deriving DecidableEq

/-- A default-constructed `ConversionStats`: all counters zero, OK status. -/
def ConversionStats.zero : ConversionStats :=
  { num_jsons := 0, num_ipc := 0, convert_time := 0, thread_time := 0,
    total_ipc_bytes := 0, status := Status.ok }

/-- The body of the aggregation loop of `AggrStats`: add the five
counters of one worker's stats onto the accumulator (the status field is
not merged; the source has a `TODO: overload +` and sums only the five
counters). -/
def addConversionStats (acc t : ConversionStats) : ConversionStats :=
  { acc with
    num_jsons := acc.num_jsons + t.num_jsons
    num_ipc := acc.num_ipc + t.num_ipc
    convert_time := acc.convert_time + t.convert_time
    thread_time := acc.thread_time + t.thread_time
    total_ipc_bytes := acc.total_ipc_bytes + t.total_ipc_bytes }

/-- Embeds `AggrStats`: fold the per-worker stats onto a
default-constructed accumulator. -/
def AggrStats (conv_stats : List ConversionStats) : ConversionStats :=
  conv_stats.foldl addConversionStats ConversionStats.zero

/-- Publisher statistics (`PublishStats`): count of published messages,
cumulative publish time, thread time, and the publisher's status, which
the supervisor checks with `BOLSON_ROE(pub_stats.status)`. -/
structure PublishStats where
  num_published : Nat
  publish_time : ℚ
  thread_time : ℚ
  status : Status
deriving DecidableEq

/-- Embeds `OutputStats`: the succinct CSV line, one list entry per
emitted field, in emission order.  Doubles are modelled as rationals.
The commented-out `num_ipc` field of the source is likewise absent
here. -/
def OutputStats (received : Nat) (conv_stats : List ConversionStats)
    (pub_stats : PublishStats) (latency_seconds : ℚ) : List ℚ :=
  let all_conv_stats := AggrStats conv_stats
  [ (received : ℚ),
    (all_conv_stats.num_jsons : ℚ),
    (all_conv_stats.total_ipc_bytes : ℚ),
    (all_conv_stats.total_ipc_bytes : ℚ) / (all_conv_stats.num_jsons : ℚ),
    all_conv_stats.convert_time / (all_conv_stats.num_jsons : ℚ),
    all_conv_stats.thread_time / (all_conv_stats.num_jsons : ℚ),
    (pub_stats.num_published : ℚ),
    pub_stats.publish_time / (pub_stats.num_published : ℚ),
    pub_stats.thread_time,
    latency_seconds ]

/-- Observable events of one `ProduceFromStream` run, in program order.
`setShutdown` and `waitObserve` record the value of the atomic
`publish_count` at that moment. -/
inductive StreamEvent
  | setupPulsar
  | spawnConverter
  | spawnPublisher
  | clientCreate
  | clientReceive
  | clientClose
  | waitObserve (published : Nat)
  | setShutdown (published : Nat)
  | joinThreads
  | outputStats
deriving DecidableEq

/-- Environment of one `ProduceFromStream` run: which protocol variant
the options hold, the outcomes of the external Pulsar and illex client
calls, the number of JSONs the client received, the successive values
the supervisor reads from the `publish_count` atomic, and the statistics
the two stats futures deliver. -/
structure StreamEnv where
  zmqProtocol : Bool
  pulsarOk : Bool
  createOk : Bool
  receiveOk : Bool
  closeOk : Bool
  received : Nat
  pubObs : Nat → Nat
  convStats : List ConversionStats
  pubStats : PublishStats
  statistics : Bool
  succinct : Bool

/-- Embeds `StreamThreads::Shutdown`: store the shutdown flag, then join
the converter and publish threads.  `published` is the value of
`publish_count` when the flag is stored. -/
def StreamThreads.ShutdownEvents (published : Nat) : List StreamEvent :=
  [StreamEvent.setShutdown published, StreamEvent.joinThreads]

/-- Embeds the supervisor's busy wait
`while (client.received() != threads.publish_count.load())`.  `k` counts
the loads performed so far; `fuel` bounds the number of iterations we
unroll (the C++ loop spins unboundedly; running out of fuel models a run
in which the counts never meet, returning `none`).  On success it
returns the observation events and the final observed value. -/
def waitPublished (pubObs : Nat → Nat) (received : Nat) :
    Nat → Nat → Option (List StreamEvent × Nat)
  | 0, _ => none
  | fuel + 1, k =>
    if pubObs k = received then
      some ([StreamEvent.waitObserve (pubObs k)], pubObs k)
    else
      match waitPublished pubObs received fuel (k + 1) with
      | none => none
      | some (evs, final) => some (StreamEvent.waitObserve (pubObs k) :: evs, final)

/-- Embeds `ProduceFromStream`.  A ZMQ protocol returns
`(GenericError, "Not implemented.")` before any pipeline work.  Raw
protocol: set up the Pulsar producer, spawn the converter and publish
threads, create the illex client, receive JSONs, close the client — any
client failure triggers `SHUTDOWN_ON_ERROR`, which shuts the threads
down immediately and returns an `IllexError` — then spin until the
published count equals the received count, shut down, check the
publisher's status future, and optionally emit statistics.  The result
is the returned status and the event trace; `none` models a run whose
busy wait never terminates. -/
def ProduceFromStream (env : StreamEnv) (fuel : Nat) :
    Option (Status × List StreamEvent) :=
  if env.zmqProtocol then
    some (Status.err Error.GenericError "Not implemented.", [])
  else if env.pulsarOk = false then
    some (Status.err Error.PulsarError "Could not set up Pulsar client and producer.",
      [StreamEvent.setupPulsar])
  else
    let pre := [StreamEvent.setupPulsar, StreamEvent.spawnConverter,
                StreamEvent.spawnPublisher]
    if env.createOk = false then
      some (Status.err Error.IllexError "Could not create client.",
        pre ++ [StreamEvent.clientCreate] ++ StreamThreads.ShutdownEvents (env.pubObs 0))
    else if env.receiveOk = false then
      some (Status.err Error.IllexError "Could not receive JSONs.",
        pre ++ [StreamEvent.clientCreate, StreamEvent.clientReceive] ++
          StreamThreads.ShutdownEvents (env.pubObs 0))
    else if env.closeOk = false then
      some (Status.err Error.IllexError "Could not close client.",
        pre ++ [StreamEvent.clientCreate, StreamEvent.clientReceive,
                StreamEvent.clientClose] ++
          StreamThreads.ShutdownEvents (env.pubObs 0))
    else
      match waitPublished env.pubObs env.received fuel 0 with
      | none => none
      | some (waitEvs, finalPub) =>
        let evs := pre ++ [StreamEvent.clientCreate, StreamEvent.clientReceive,
                           StreamEvent.clientClose] ++ waitEvs ++
          StreamThreads.ShutdownEvents finalPub
        if env.pubStats.status.isOk = false then
          some (env.pubStats.status, evs)
        else if env.statistics then
          some (Status.ok, evs ++ [StreamEvent.outputStats])
        else
          some (Status.ok, evs)

/-- A raw JSON input buffer handle (`illex::JSONBuffer`): the bytes, the
filled size, and the inclusive sequence range of the JSONs it holds. -/
structure JSONBuffer where
  data : List Nat
  size : Nat
  range : SeqRange
deriving DecidableEq

/-- Embeds the sequence-number builder loop of `BatteryParser::ParseOne`:
`for (uint64_t s = in->range().first; s <= in->range().last; s++)
builder.UnsafeAppend(s);` — the ascending values from `first` to `last`
inclusive. -/
def seqValues (r : SeqRange) : List Nat :=
  (List.range (r.last + 1 - r.first)).map (fun i => r.first + i)

/-- The data the FPGA kernel leaves in the output buffers, as read back
by `ParseOne`: the row count from the MMIO result registers and the
per-row voltage lists decoded from the offsets/values buffers. -/
structure HwParseResult where
  num_rows : Nat
  voltage : List (List Nat)

/-- The voltage column `WrapOutput` builds from the hardware output
buffers (field `voltage : list<uint64 not null>` of the output schema). -/
def voltageColumn (hw : HwParseResult) : ArrowColumn :=
  { name := "voltage", dtype := ArrowType.listUint64,
    values := hw.voltage.map ArrowValue.u64list }

/-- Embeds `WrapOutput`: wrap the hardware output buffers into a record
batch with the battery output schema (a single `voltage` column) and the
row count read from the result registers. -/
def WrapOutput (hw : HwParseResult) : RecordBatch :=
  { num_rows := hw.num_rows, columns := [voltageColumn hw], metadata := [] }

/-- Embeds `arrow::RecordBatch::AddColumn(0, name, array)` for a uint64
array: prepend the column at index 0; Arrow rejects a column whose
length differs from the batch's row count. -/
def RecordBatch.AddColumn0 (rb : RecordBatch) (name : String)
    (col : List Nat) : Except String RecordBatch :=
  if col.length = rb.num_rows then
    .ok { rb with
          columns := { name := name, dtype := ArrowType.uint64,
                       values := col.map ArrowValue.u64 } :: rb.columns }
  else
    .error "Added column length must match record batch length."

/-- Modelled from the spec: `AddSeqAsSchemaMeta` is called by
`BatteryParser::ParseOne` but its definition is not part of this source
snapshot.  Per the spec's external-interface section, schema metadata
always carries `bolson_seq_first` and `bolson_seq_last` as
string-encoded decimals covering the batch's range; the seq range is
attached only as schema metadata, leaving the columns unchanged. -/
def AddSeqAsSchemaMeta (rb : RecordBatch) (r : SeqRange) : RecordBatch :=
  { rb with
    metadata := rb.metadata ++
      [("bolson_seq_first", toString r.first),
       ("bolson_seq_last", toString r.last)] }

/-- Embeds the output construction of `BatteryParser::ParseOne` (fpga
battery parser).  The MMIO driving of the kernel is external; `hw` is
what the hardware produced.  If `seq_column` is set, the sequence
number column built by the builder loop is prepended at index 0 under
the name `bolson_seq` (an Arrow failure becomes an `ArrowError`);
otherwise the range is attached as schema metadata only.  The resulting
batch is paired with the input buffer's range. -/
def BatteryParser.ParseOne (seq_column : Bool) (hw : HwParseResult)
    (inb : JSONBuffer) : Except Status ParsedBatch :=
  let out_batch := WrapOutput hw
  if seq_column then
    match out_batch.AddColumn0 "bolson_seq" (seqValues inb.range) with
    | .error m => .error (Status.err Error.ArrowError m)
    | .ok final_batch => .ok { batch := final_batch, seq_range := inb.range }
  else
    .ok { batch := AddSeqAsSchemaMeta out_batch inb.range, seq_range := inb.range }

/-- Options of the fpga battery parser backend (`BatteryOptions`):
number of parser instances and whether to add the sequence column. -/
structure FpgaBatteryOptions where
  num_parsers : Nat
  seq_column : Bool
deriving DecidableEq

/-- Outcomes of the external Fletcher/platform calls performed while
setting up a parser context. -/
structure FletcherEnv where
  platformMakeOk : Bool
  platformInitOk : Bool
  allocOk : Bool
  contextMakeOk : Bool
  queueOk : Bool
  enableOk : Bool
  mmioOk : Bool
deriving DecidableEq

/-- One fpga battery parser instance as constructed by
`PrepareParsers`: its index among `num_parsers` instances. -/
structure FpgaBatteryParser where
  idx : Nat
  num_parsers : Nat
  seq_column : Bool
deriving DecidableEq

/-- Embeds fpga `BatteryParser::Init`: indices of 256 or more are
rejected (`if (idx_ >= 256)`), otherwise the four output addresses are
written over MMIO. -/
def BatteryParser.Init (env : FletcherEnv) (p : FpgaBatteryParser) :
    Except Status Unit :=
  if p.idx ≥ 256 then
    .error (Status.err Error.FletcherError
      "Hardware does not allow more than 256 parser instances.")
  else if env.mmioOk then .ok ()
  else .error (Status.err Error.FletcherError "WriteMMIO failed.")

/-- Embeds fpga `BatteryParserContext::PrepareParsers`: construct one
parser per index `0 .. num_parsers - 1` (each parser's `Init` is called
with its status discarded). -/
def PrepareParsers (num_parsers : Nat) (seq_column : Bool) :
    List FpgaBatteryParser :=
  (List.range num_parsers).map
    (fun i => { idx := i, num_parsers := num_parsers, seq_column := seq_column })

/-- The fpga battery parser context resulting from a successful `Make`. -/
structure FpgaBatteryParserContext where
  num_parsers : Nat
  seq_column : Bool
  parsers : List FpgaBatteryParser
deriving DecidableEq

/-- Embeds fpga `BatteryParserContext::Make`: reject more than 256
parser instances up front, then run the external platform / allocation /
context / queueing / enable steps (each may fail), and finally construct
the parsers with `PrepareParsers`. -/
def BatteryParserContext.Make (env : FletcherEnv)
    (opts : FpgaBatteryOptions) : Except Status FpgaBatteryParserContext :=
  if opts.num_parsers > 256 then
    .error (Status.err Error.FletcherError
      "Hardware does not allow more than 256 parser instances.")
  else if env.platformMakeOk = false then
    .error (Status.err Error.FletcherError "Could not create platform.")
  else if env.platformInitOk = false then
    .error (Status.err Error.FletcherError "Could not initialize platform.")
  else if env.allocOk = false then
    .error (Status.err Error.FletcherError "Could not allocate buffers.")
  else if env.contextMakeOk = false then
    .error (Status.err Error.FletcherError "Could not create context.")
  else if env.queueOk = false then
    .error (Status.err Error.FletcherError "Could not queue record batches.")
  else if env.enableOk = false then
    .error (Status.err Error.FletcherError "Could not enable context.")
  else
    .ok { num_parsers := opts.num_parsers, seq_column := opts.seq_column,
          parsers := PrepareParsers opts.num_parsers opts.seq_column }

/-- Options of the opae battery parser backend: number of parser
instances and the AFU ID string (empty means derive it). -/
structure OpaeBatteryOptions where
  num_parsers : Nat
  afu_id : String
deriving DecidableEq

/-- One hexadecimal digit, lower case, as emitted by
`std::hex` formatting. -/
def hexDigit (n : Nat) : Char :=
  if n < 10 then Char.ofNat (48 + n) else Char.ofNat (87 + n)

/-- Two-digit zero-padded lower-case hex of a byte, as produced by
`std::setw(2) << std::setfill('0') << std::hex`. -/
def hexByte (n : Nat) : String :=
  String.mk [hexDigit (n / 16 % 16), hexDigit (n % 16)]

/-- The opae battery parser context produced by its `Make`: the parser
instances are NOT constructed here — `parsers_` stays empty until the
context's `Init` runs `PrepareParsers`. -/
structure OpaeBatteryParserContext where
  num_parsers : Nat
  afu_id : String
  parsers : List Nat
deriving DecidableEq

/-- Embeds opae `BatteryParserContext::Make`: when no AFU ID is supplied
it is derived from `num_parsers`, which is only supported up to 255;
with an explicit AFU ID the parser count is not checked.  The platform
is created and initialized; no parser instances are constructed. -/
def OpaeBatteryParserContext.Make (env : FletcherEnv)
    (opts : OpaeBatteryOptions) : Except Status OpaeBatteryParserContext :=
  if opts.afu_id.isEmpty ∧ opts.num_parsers > 255 then
    .error (Status.err Error.OpaeError
      "Auto-deriving AFU ID for number of parsers larger than 255 is not supported.")
  else
    let afu_id_str :=
      if opts.afu_id.isEmpty then
        "9ca43fb0-c340-4908-b79b-5c89b4ef5e" ++ hexByte opts.num_parsers
      else opts.afu_id
    if env.platformMakeOk = false then
      .error (Status.err Error.OpaeError "Fletcher: could not create platform.")
    else if env.platformInitOk = false then
      .error (Status.err Error.OpaeError "Fletcher: could not initialize platform.")
    else
      .ok { num_parsers := opts.num_parsers, afu_id := afu_id_str, parsers := [] }

/-- The fixed allocation size of the OPAE allocator
(`opae_fixed_capacity`, exactly one gibibyte). -/
def opae_fixed_capacity : Nat := 1024 * 1024 * 1024

/-- A buffer handed out by the OPAE allocator: the mapped address, the
byte size, and the byte contents as a function of the offset. -/
structure OpaeBuffer where
  addr : Nat
  size : Nat
  byteAt : Nat → Nat

/-- The OPAE allocator state: its `allocations` map from host address to
allocation size. -/
structure OpaeAllocator where
  allocations : List (Nat × Nat)

/-- Outcome of the external `mmap` call: the mapped address, or `none`
for `MAP_FAILED`. -/
structure MmapEnv where
  mmapResult : Option Nat

/-- Embeds `OpaeAllocator::Allocate`: a size other than the fixed
capacity is only warned about and then overridden
(`size = fixed_capacity_;`); `mmap` obtains a huge-page mapping of the
fixed capacity (failure is an `OpaeError`); `memset` zeroes the buffer
(it returns its first argument, so the guarded error branch after it is
unreachable); the allocation is recorded in the map. -/
def OpaeAllocator.Allocate (env : MmapEnv) (a : OpaeAllocator)
    (size : Nat) : Except Status (OpaeAllocator × OpaeBuffer) :=
  let _requested := size
  let size := opae_fixed_capacity
  match env.mmapResult with
  | none =>
    .error (Status.err Error.OpaeError
      "OpaeAllocator unable to allocate huge page buffer.")
  | some addr =>
    .ok ({ allocations := a.allocations ++ [(addr, size)] },
         { addr := addr, size := size, byteAt := fun _ => 0 })

/-- Embeds `OpaeAllocator::Free`: the unmap code is commented out; the
function only warns and returns OK, leaving the allocator state (and the
mapping) untouched. -/
def OpaeAllocator.Free (a : OpaeAllocator) (_buffer : OpaeBuffer) :
    Status × OpaeAllocator :=
  (Status.ok, a)

/-- Embeds `RecordSizeOf`: the number of records covered by a serialized
batch's sequence range. -/
def RecordSizeOf (batch : SerializedBatch) : Nat :=
  batch.seq_range.last - batch.seq_range.first + 1

/-- Embeds `ByteSizeOf`: total payload bytes over a list of serialized
batches. -/
def ByteSizeOf (batches : List SerializedBatch) : Nat :=
  (batches.map (fun b => b.message.length)).sum

/-- A serialization function for witnesses: each batch serializes to one
byte per row. -/
def wSer : RecordBatch → Except String (List Nat) :=
  fun rb => Except.ok (List.replicate rb.num_rows 3)

/-- A two-row resized batch for witnesses. -/
def wBatch1 : ResizedBatch :=
  { batch := { num_rows := 2, columns := [], metadata := [] },
    seq_range := { first := 0, last := 1 } }

/-- A three-row resized batch for witnesses. -/
def wBatch2 : ResizedBatch :=
  { batch := { num_rows := 3, columns := [], metadata := [] },
    seq_range := { first := 2, last := 4 } }

/-- A `main` environment whose stream sub-program fails fatally. -/
def envFatalStream : MainEnv :=
  { cliStatus := Status.ok, sub := SubCommand.STREAM, fileStatus := Status.ok,
    streamStatus := Status.err Error.GenericError "Not implemented." }

/-- A `main` environment selecting the FILE sub-command, with both
sub-programs succeeding. -/
def envFileSub : MainEnv :=
  { cliStatus := Status.ok, sub := SubCommand.FILE, fileStatus := Status.ok,
    streamStatus := Status.ok }

/-- Publisher stats of a successful publisher. -/
def pubStatsOk : PublishStats :=
  { num_published := 0, publish_time := 0, thread_time := 0, status := Status.ok }

/-- Conversion-worker stats carrying a failed status. -/
def convStatsFailed : ConversionStats :=
  { num_jsons := 0, num_ipc := 0, convert_time := 0, thread_time := 0,
    total_ipc_bytes := 0, status := Status.err Error.ArrowError "Conversion failed." }

/-- A stream run in which everything succeeds but one conversion worker
delivered a failed status in its stats future. -/
def envWorkerFailed : StreamEnv :=
  { zmqProtocol := false, pulsarOk := true, createOk := true, receiveOk := true,
    closeOk := true, received := 0, pubObs := fun _ => 0,
    convStats := [convStatsFailed], pubStats := pubStatsOk,
    statistics := false, succinct := false }

/-- A stream run in which `client.ReceiveJSONs` fails after one JSON was
received and before anything was published. -/
def envClientFailed : StreamEnv :=
  { zmqProtocol := false, pulsarOk := true, createOk := true, receiveOk := false,
    closeOk := true, received := 1, pubObs := fun _ => 0, convStats := [],
    pubStats := pubStatsOk, statistics := false, succinct := false }

/-- A fully successful stream run: three JSONs received and already
published at the first observation. -/
def envStreamAllOk : StreamEnv :=
  { zmqProtocol := false, pulsarOk := true, createOk := true, receiveOk := true,
    closeOk := true, received := 3, pubObs := fun _ => 3, convStats := [],
    pubStats := pubStatsOk, statistics := false, succinct := false }

/-- A stream run whose options hold the ZMQ protocol variant. -/
def envZmq : StreamEnv :=
  { zmqProtocol := true, pulsarOk := true, createOk := true, receiveOk := true,
    closeOk := true, received := 0, pubObs := fun _ => 0, convStats := [],
    pubStats := pubStatsOk, statistics := false, succinct := false }

/-- A Fletcher environment in which every external call succeeds. -/
def fletcherAllOk : FletcherEnv :=
  { platformMakeOk := true, platformInitOk := true, allocOk := true,
    contextMakeOk := true, queueOk := true, enableOk := true, mmioOk := true }

/-- Hardware output with two rows for parse witnesses. -/
def hwTwoRows : HwParseResult :=
  { num_rows := 2, voltage := [[1], [2, 3]] }

/-- An input buffer covering sequence numbers 5 and 6. -/
def bufSeq56 : JSONBuffer :=
  { data := [], size := 0, range := { first := 5, last := 6 } }

/-- The parsed batch `ParseOne` produces from `hwTwoRows` and `bufSeq56`
with the sequence column enabled. -/
def pbSeq : ParsedBatch :=
  { batch := { num_rows := 2,
               columns := [ { name := "bolson_seq", dtype := ArrowType.uint64,
                              values := [ArrowValue.u64 5, ArrowValue.u64 6] },
                            voltageColumn hwTwoRows ],
               metadata := [] },
    seq_range := { first := 5, last := 6 } }

/-- The buffer a successful witness allocation returns. -/
def bufGib : OpaeBuffer :=
  { addr := 0, size := opae_fixed_capacity, byteAt := fun _ => 0 }

/-- The parsed batch `ParseOne` produces from `hwTwoRows` and `bufSeq56`
with the sequence column disabled. -/
def pbMeta : ParsedBatch :=
  { batch := { num_rows := 2,
               columns := [voltageColumn hwTwoRows],
               metadata := [("bolson_seq_first", "5"), ("bolson_seq_last", "6")] },
    seq_range := { first := 5, last := 6 } }

/-- C1: for every list of resized batches given to
`Serializer::Serialize`, the call returns a non-OK status if any batch's
serialized payload exceeds `max_ipc_size`; and when it returns OK, every
`SerializedBatch` written to the output has payload size at most
`max_ipc_size` and carries the `seq_range` of the batch it was
serialized from (pairwise, in order). -/
theorem serializer_serialize_bounds_and_seq_ranges
    (ser : RecordBatch → Except String (List Nat)) (max_ipc_size : Nat)
    (input : List ResizedBatch) :
    (∀ out, Serializer.Serialize ser max_ipc_size input = Except.ok out →
      List.Forall₂ (fun (o : SerializedBatch) (i : ResizedBatch) =>
        o.message.length ≤ max_ipc_size ∧ o.seq_range = i.seq_range) out input) ∧
    ((∃ b ∈ input, ∃ p, ser b.batch = Except.ok p ∧ p.length > max_ipc_size) →
      ∃ st, Serializer.Serialize ser max_ipc_size input = Except.error st) := by
  induction input with
  | nil =>
    constructor
    · intro out h
      simp only [Serializer.Serialize, Except.ok.injEq] at h
      subst h
      exact List.Forall₂.nil
    · rintro ⟨b, hb, -⟩
      exact absurd hb (List.not_mem_nil b)
  | cons hd tl ih =>
    constructor
    · intro out h
      cases hser : ser hd.batch with
      | error m => simp [Serializer.Serialize, hser] at h
      | ok p =>
        by_cases hgt : p.length > max_ipc_size
        · simp [Serializer.Serialize, hser, hgt] at h
        · cases hrec : Serializer.Serialize ser max_ipc_size tl with
          | error s => simp [Serializer.Serialize, hser, hgt, hrec] at h
          | ok o =>
            simp only [Serializer.Serialize, hser, hgt, if_false,
              if_neg hgt, hrec, Except.ok.injEq] at h
            subst h
            exact List.Forall₂.cons ⟨Nat.le_of_not_lt hgt, rfl⟩ (ih.1 o hrec)
    · rintro ⟨b, hb, p, hp, hgt⟩
      rcases List.mem_cons.mp hb with rfl | hbtl
      · exact ⟨Status.err Error.GenericError
          "Maximum IPC message size exceeded.Reduce max number of rows per batch.",
          by simp [Serializer.Serialize, hp, hgt]⟩
      · rcases ih.2 ⟨b, hbtl, p, hp, hgt⟩ with ⟨st, hst⟩
        cases hser : ser hd.batch with
        | error m =>
          exact ⟨Status.err Error.ArrowError ("Could not serialize batch: " ++ m),
            by simp [Serializer.Serialize, hser]⟩
        | ok q =>
          by_cases hq : q.length > max_ipc_size
          · exact ⟨Status.err Error.GenericError
              "Maximum IPC message size exceeded.Reduce max number of rows per batch.",
              by simp [Serializer.Serialize, hser, hq]⟩
          · exact ⟨st, by simp [Serializer.Serialize, hser, hq, hst]⟩

/-- Witness for C1: a successful serialization of two batches keeps all
payloads within the budget and the seq ranges aligned, and a run with an
oversized payload errors. -/
theorem serializer_serialize_bounds_and_seq_ranges_witness :
    List.Forall₂ (fun (o : SerializedBatch) (i : ResizedBatch) =>
        o.message.length ≤ 8 ∧ o.seq_range = i.seq_range)
      [{ message := [3, 3], seq_range := { first := 0, last := 1 } },
       { message := [3, 3, 3], seq_range := { first := 2, last := 4 } }]
      [wBatch1, wBatch2] ∧
    ∃ st, Serializer.Serialize wSer 2 [wBatch2] = Except.error st :=
  ⟨(serializer_serialize_bounds_and_seq_ranges wSer 8 [wBatch1, wBatch2]).1 _ rfl,
   (serializer_serialize_bounds_and_seq_ranges wSer 2 [wBatch2]).2
     ⟨wBatch2, by decide, [3, 3, 3], rfl, by decide⟩⟩

/-- C2: evaluation of `main` at a fatal run.  Even when the final status
is non-OK (`main` logs "exiting with errors"), the process exit code is
0, because the last statement of `main` is an unconditional
`return 0;`. -/
theorem main_exit_code_zero_on_fatal_error :
    (mainRun envFatalStream).status.isOk = false ∧
    (mainRun envFatalStream).exitCode = 0 := by
  exact ⟨rfl, rfl⟩

/-- C3: evaluation of `main` at a FILE-sub-command run.  The FILE arm of
the switch has no `break`, so the run executes `ProduceFromFile` and
then falls through and also executes `ProduceFromStream`. -/
theorem main_file_subcommand_falls_through :
    (mainRun envFileSub).calls = [Call.produceFromFile, Call.produceFromStream] ∧
    Call.produceFromStream ∈ (mainRun envFileSub).calls := by
  exact ⟨rfl, by decide⟩

/-- The busy wait returns only when it has observed the published count
equal to the received count, and it emits nothing but observation
events. -/
theorem waitPublished_spec (pubObs : Nat → Nat) (received : Nat) :
    ∀ fuel k evs final,
      waitPublished pubObs received fuel k = some (evs, final) →
      final = received ∧ ∀ e ∈ evs, ∃ n, e = StreamEvent.waitObserve n := by
  intro fuel
  induction fuel with
  | zero =>
    intro k evs final h
    simp [waitPublished] at h
  | succ fuel ih =>
    intro k evs final h
    simp only [waitPublished] at h
    by_cases heq : pubObs k = received
    · rw [if_pos heq] at h
      simp only [Option.some.injEq, Prod.mk.injEq] at h
      obtain ⟨rfl, rfl⟩ := h
      refine ⟨heq, ?_⟩
      intro e he
      simp only [List.mem_singleton] at he
      exact ⟨pubObs k, he⟩
    · rw [if_neg heq] at h
      cases hrec : waitPublished pubObs received fuel (k + 1) with
      | none => simp [hrec] at h
      | some pr =>
        obtain ⟨evs2, final2⟩ := pr
        simp only [hrec, Option.some.injEq, Prod.mk.injEq] at h
        obtain ⟨rfl, rfl⟩ := h
        obtain ⟨hfin, hobs⟩ := ih (k + 1) evs2 final2 hrec
        refine ⟨hfin, ?_⟩
        intro e he
        rcases List.mem_cons.mp he with rfl | he2
        · exact ⟨pubObs k, rfl⟩
        · exact hobs e he2

/-- C4 (amended): for every terminating run of `ProduceFromStream`, the
returned status is OK iff the protocol is raw, the Pulsar setup
succeeded, all three illex client operations succeeded, and the
publisher's stats status is OK.  The conversion workers' statuses do not
appear: the supervisor checks only `pub_stats.status`. -/
theorem produce_from_stream_status_ok_iff (env : StreamEnv) (fuel : Nat)
    (st : Status) (evs : List StreamEvent)
    (hrun : ProduceFromStream env fuel = some (st, evs)) :
    st.isOk = true ↔
      (env.zmqProtocol = false ∧ env.pulsarOk = true ∧ env.createOk = true ∧
       env.receiveOk = true ∧ env.closeOk = true ∧
       env.pubStats.status.isOk = true) := by
  cases hz : env.zmqProtocol with
  | true =>
    simp only [ProduceFromStream, hz, if_true, Option.some.injEq,
      Prod.mk.injEq] at hrun
    obtain ⟨rfl, rfl⟩ := hrun
    simp [Status.isOk, hz]
  | false =>
    cases hpul : env.pulsarOk with
    | false =>
      simp [ProduceFromStream, hz, hpul] at hrun
      obtain ⟨rfl, rfl⟩ := hrun
      simp [Status.isOk, hpul]
    | true =>
      cases hc : env.createOk with
      | false =>
        simp [ProduceFromStream, hz, hpul, hc] at hrun
        obtain ⟨rfl, rfl⟩ := hrun
        simp [Status.isOk, hc]
      | true =>
        cases hr : env.receiveOk with
        | false =>
          simp [ProduceFromStream, hz, hpul, hc, hr] at hrun
          obtain ⟨rfl, rfl⟩ := hrun
          simp [Status.isOk, hr]
        | true =>
          cases hcl : env.closeOk with
          | false =>
            simp [ProduceFromStream, hz, hpul, hc, hr, hcl] at hrun
            obtain ⟨rfl, rfl⟩ := hrun
            simp [Status.isOk, hcl]
          | true =>
            cases hw : waitPublished env.pubObs env.received fuel 0 with
            | none => simp [ProduceFromStream, hz, hpul, hc, hr, hcl, hw] at hrun
            | some pr =>
              obtain ⟨waitEvs, finalPub⟩ := pr
              cases hps : env.pubStats.status.isOk with
              | false =>
                simp [ProduceFromStream, hz, hpul, hc, hr, hcl, hw, hps] at hrun
                obtain ⟨rfl, rfl⟩ := hrun
                simp [hz, hpul, hc, hr, hcl, hps]
              | true =>
                cases hstat : env.statistics with
                | false =>
                  simp [ProduceFromStream, hz, hpul, hc, hr, hcl, hw, hps,
                    hstat] at hrun
                  obtain ⟨rfl, rfl⟩ := hrun
                  simp [Status.isOk, hz, hpul, hc, hr, hcl, hps]
                | true =>
                  simp [ProduceFromStream, hz, hpul, hc, hr, hcl, hw, hps,
                    hstat] at hrun
                  obtain ⟨rfl, rfl⟩ := hrun
                  simp [Status.isOk, hz, hpul, hc, hr, hcl, hps]

/-- Witness for C4's theorem: a concrete fully successful run returns
status OK, matching the right-hand side. -/
theorem produce_from_stream_status_ok_iff_witness :
    (Status.ok.isOk = true) ↔
      (envStreamAllOk.zmqProtocol = false ∧ envStreamAllOk.pulsarOk = true ∧
       envStreamAllOk.createOk = true ∧ envStreamAllOk.receiveOk = true ∧
       envStreamAllOk.closeOk = true ∧
       envStreamAllOk.pubStats.status.isOk = true) :=
  produce_from_stream_status_ok_iff envStreamAllOk 1 Status.ok
    [StreamEvent.setupPulsar, StreamEvent.spawnConverter,
     StreamEvent.spawnPublisher, StreamEvent.clientCreate,
     StreamEvent.clientReceive, StreamEvent.clientClose,
     StreamEvent.waitObserve 3, StreamEvent.setShutdown 3,
     StreamEvent.joinThreads] (by rfl)

/-- Counterexample for C4 as stated: a terminating run in which a
conversion worker's stats status is a failure still returns OK — the
aggregated result is not "OK iff all stages returned OK", because worker
statuses are never consulted. -/
theorem produce_from_stream_ignores_worker_status_cex :
    ProduceFromStream envWorkerFailed 1 =
      some (Status.ok,
        [StreamEvent.setupPulsar, StreamEvent.spawnConverter,
         StreamEvent.spawnPublisher, StreamEvent.clientCreate,
         StreamEvent.clientReceive, StreamEvent.clientClose,
         StreamEvent.waitObserve 0, StreamEvent.setShutdown 0,
         StreamEvent.joinThreads]) ∧
    envWorkerFailed.convStats.map (fun s => s.status.isOk) = [false] := by
  exact ⟨rfl, rfl⟩

/-- C6 (amended): in every terminating run in which the three illex
client operations succeed, the shutdown flag is set only with the
published count equal to the number of received JSONs — the supervisor
waits for `published_count == received` before initiating shutdown. -/
theorem produce_from_stream_shutdown_after_drain (env : StreamEnv)
    (fuel : Nat) (st : Status) (evs : List StreamEvent)
    (hrun : ProduceFromStream env fuel = some (st, evs))
    (hc : env.createOk = true) (hr : env.receiveOk = true)
    (hcl : env.closeOk = true) :
    ∀ p, StreamEvent.setShutdown p ∈ evs → p = env.received := by
  intro p hp
  cases hz : env.zmqProtocol with
  | true =>
    simp only [ProduceFromStream, hz, if_true, Option.some.injEq,
      Prod.mk.injEq] at hrun
    obtain ⟨-, rfl⟩ := hrun
    simp at hp
  | false =>
    cases hpul : env.pulsarOk with
    | false =>
      simp [ProduceFromStream, hz, hpul] at hrun
      obtain ⟨-, rfl⟩ := hrun
      simp at hp
    | true =>
      cases hw : waitPublished env.pubObs env.received fuel 0 with
      | none => simp [ProduceFromStream, hz, hpul, hc, hr, hcl, hw] at hrun
      | some pr =>
        obtain ⟨waitEvs, finalPub⟩ := pr
        obtain ⟨hfin, hobs⟩ :=
          waitPublished_spec env.pubObs env.received fuel 0 waitEvs finalPub hw
        cases hps : env.pubStats.status.isOk with
        | false =>
          simp [ProduceFromStream, hz, hpul, hc, hr, hcl, hw, hps] at hrun
          obtain ⟨-, rfl⟩ := hrun
          simp [StreamThreads.ShutdownEvents] at hp
          rcases hp with hp | hp
          · obtain ⟨n, hn⟩ := hobs _ hp
            simp at hn
          · exact hp ▸ hfin
        | true =>
          cases hstat : env.statistics with
          | false =>
            simp [ProduceFromStream, hz, hpul, hc, hr, hcl, hw, hps,
              hstat] at hrun
            obtain ⟨-, rfl⟩ := hrun
            simp [StreamThreads.ShutdownEvents] at hp
            rcases hp with hp | hp
            · obtain ⟨n, hn⟩ := hobs _ hp
              simp at hn
            · exact hp ▸ hfin
          | true =>
            simp [ProduceFromStream, hz, hpul, hc, hr, hcl, hw, hps,
              hstat] at hrun
            obtain ⟨-, rfl⟩ := hrun
            simp [StreamThreads.ShutdownEvents] at hp
            rcases hp with hp | hp
            · obtain ⟨n, hn⟩ := hobs _ hp
              simp at hn
            · exact hp ▸ hfin

/-- Witness for C6's theorem: in the concrete all-success run, the one
`setShutdown` event carries 3, the received count. -/
theorem produce_from_stream_shutdown_after_drain_witness :
    (3 : Nat) = envStreamAllOk.received :=
  produce_from_stream_shutdown_after_drain envStreamAllOk 1 Status.ok
    [StreamEvent.setupPulsar, StreamEvent.spawnConverter,
     StreamEvent.spawnPublisher, StreamEvent.clientCreate,
     StreamEvent.clientReceive, StreamEvent.clientClose,
     StreamEvent.waitObserve 3, StreamEvent.setShutdown 3,
     StreamEvent.joinThreads] (by rfl) rfl rfl rfl 3 (by decide)

/-- Counterexample for C6 as stated: when `ReceiveJSONs` fails,
`SHUTDOWN_ON_ERROR` sets the shutdown flag immediately — here with 0
published while 1 JSON was received — so the flag is not always withheld
until `published_count == received`. -/
theorem produce_from_stream_early_shutdown_cex :
    ProduceFromStream envClientFailed 1 =
      some (Status.err Error.IllexError "Could not receive JSONs.",
        [StreamEvent.setupPulsar, StreamEvent.spawnConverter,
         StreamEvent.spawnPublisher, StreamEvent.clientCreate,
         StreamEvent.clientReceive, StreamEvent.setShutdown 0,
         StreamEvent.joinThreads]) ∧
    envClientFailed.received = 1 ∧ (0 : Nat) ≠ 1 := by
  exact ⟨rfl, rfl, by decide⟩

/-- C7: whenever the options hold the zmq-push protocol variant,
`ProduceFromStream` performs no pipeline work (empty event trace) and
returns the not-implemented error status
(`GenericError, "Not implemented."`). -/
theorem produce_from_stream_zmq_not_implemented (env : StreamEnv)
    (fuel : Nat) (h : env.zmqProtocol = true) :
    ProduceFromStream env fuel =
      some (Status.err Error.GenericError "Not implemented.", []) := by
  simp [ProduceFromStream, h]

/-- Witness for C7: the concrete ZMQ run. -/
theorem produce_from_stream_zmq_not_implemented_witness :
    ProduceFromStream envZmq 1 =
      some (Status.err Error.GenericError "Not implemented.", []) :=
  produce_from_stream_zmq_not_implemented envZmq 1 rfl

/-- Folding worker stats adds up the `num_jsons` counters. -/
theorem foldl_add_num_jsons (l : List ConversionStats) :
    ∀ acc, (List.foldl addConversionStats acc l).num_jsons =
      acc.num_jsons + (l.map (fun t => t.num_jsons)).sum := by
  induction l with
  | nil => intro acc; simp
  | cons h t ih =>
    intro acc
    simp only [List.foldl_cons, List.map_cons, List.sum_cons, ih,
      addConversionStats]
    omega

/-- Folding worker stats adds up the `num_ipc` counters. -/
theorem foldl_add_num_ipc (l : List ConversionStats) :
    ∀ acc, (List.foldl addConversionStats acc l).num_ipc =
      acc.num_ipc + (l.map (fun t => t.num_ipc)).sum := by
  induction l with
  | nil => intro acc; simp
  | cons h t ih =>
    intro acc
    simp only [List.foldl_cons, List.map_cons, List.sum_cons, ih,
      addConversionStats]
    omega

/-- Folding worker stats adds up the `convert_time` counters. -/
theorem foldl_add_convert_time (l : List ConversionStats) :
    ∀ acc, (List.foldl addConversionStats acc l).convert_time =
      acc.convert_time + (l.map (fun t => t.convert_time)).sum := by
  induction l with
  | nil => intro acc; simp
  | cons h t ih =>
    intro acc
    simp only [List.foldl_cons, List.map_cons, List.sum_cons, ih,
      addConversionStats]
    ring

/-- Folding worker stats adds up the `thread_time` counters. -/
theorem foldl_add_thread_time (l : List ConversionStats) :
    ∀ acc, (List.foldl addConversionStats acc l).thread_time =
      acc.thread_time + (l.map (fun t => t.thread_time)).sum := by
  induction l with
  | nil => intro acc; simp
  | cons h t ih =>
    intro acc
    simp only [List.foldl_cons, List.map_cons, List.sum_cons, ih,
      addConversionStats]
    ring

/-- Folding worker stats adds up the `total_ipc_bytes` counters. -/
theorem foldl_add_total_ipc_bytes (l : List ConversionStats) :
    ∀ acc, (List.foldl addConversionStats acc l).total_ipc_bytes =
      acc.total_ipc_bytes + (l.map (fun t => t.total_ipc_bytes)).sum := by
  induction l with
  | nil => intro acc; simp
  | cons h t ih =>
    intro acc
    simp only [List.foldl_cons, List.map_cons, List.sum_cons, ih,
      addConversionStats]
    omega

/-- C8: the succinct statistics line consists of exactly these fields,
in this order: received, num_jsons, total_ipc_bytes, average bytes per
message, average parse time per JSON, average thread seconds per JSON,
num_published, average publish time per message, publish thread seconds,
first latency — where every aggregate conversion counter is the
fieldwise sum over all worker stats. -/
theorem output_stats_field_order_and_sums (received : Nat)
    (conv_stats : List ConversionStats) (pub_stats : PublishStats)
    (latency_seconds : ℚ) :
    OutputStats received conv_stats pub_stats latency_seconds =
      [ (received : ℚ),
        ((((conv_stats.map (fun t => t.num_jsons)).sum : ℕ)) : ℚ),
        ((((conv_stats.map (fun t => t.total_ipc_bytes)).sum : ℕ)) : ℚ),
        ((((conv_stats.map (fun t => t.total_ipc_bytes)).sum : ℕ)) : ℚ) /
          ((((conv_stats.map (fun t => t.num_jsons)).sum : ℕ)) : ℚ),
        (conv_stats.map (fun t => t.convert_time)).sum /
          ((((conv_stats.map (fun t => t.num_jsons)).sum : ℕ)) : ℚ),
        (conv_stats.map (fun t => t.thread_time)).sum /
          ((((conv_stats.map (fun t => t.num_jsons)).sum : ℕ)) : ℚ),
        (pub_stats.num_published : ℚ),
        pub_stats.publish_time / (pub_stats.num_published : ℚ),
        pub_stats.thread_time,
        latency_seconds ] := by
  have h1 := foldl_add_num_jsons conv_stats ConversionStats.zero
  have h3 := foldl_add_convert_time conv_stats ConversionStats.zero
  have h4 := foldl_add_thread_time conv_stats ConversionStats.zero
  have h5 := foldl_add_total_ipc_bytes conv_stats ConversionStats.zero
  simp only [OutputStats, AggrStats, h1, h3, h4, h5]
  simp [ConversionStats.zero]

/-- C5: when the sequence column is enabled, a successful `ParseOne`
yields a batch whose column at index 0 is named `bolson_seq`, has type
uint64, and holds exactly the values `first, first+1, ..., last` of the
input buffer's range, in order; when it is disabled, the columns are
exactly the wrapped hardware output and the range is attached only as
schema metadata. -/
theorem battery_parse_one_seq_column_spec (hw : HwParseResult)
    (inb : JSONBuffer) :
    (∀ pb, BatteryParser.ParseOne true hw inb = Except.ok pb →
      pb.batch.columns.head? =
          some { name := "bolson_seq", dtype := ArrowType.uint64,
                 values := (seqValues inb.range).map ArrowValue.u64 } ∧
        (seqValues inb.range).length = inb.range.last + 1 - inb.range.first ∧
        (∀ i, i < inb.range.last + 1 - inb.range.first →
          (seqValues inb.range)[i]? = some (inb.range.first + i))) ∧
    (∀ pb, BatteryParser.ParseOne false hw inb = Except.ok pb →
      pb.batch.columns = [voltageColumn hw] ∧
      pb.batch.metadata =
        [("bolson_seq_first", toString inb.range.first),
         ("bolson_seq_last", toString inb.range.last)]) := by
  constructor
  · intro pb h
    simp only [BatteryParser.ParseOne, RecordBatch.AddColumn0, if_true] at h
    by_cases hlen : (seqValues inb.range).length = (WrapOutput hw).num_rows
    · rw [if_pos hlen] at h
      simp only [Except.ok.injEq] at h
      subst h
      refine ⟨rfl, ?_, ?_⟩
      · simp [seqValues]
      · intro i hi
        simp [seqValues, List.getElem?_map, List.getElem?_range, hi]
    · rw [if_neg hlen] at h
      exact absurd h (by simp)
  · intro pb h
    simp only [BatteryParser.ParseOne, if_false, Except.ok.injEq,
      Bool.false_eq_true, ite_false] at h
    subst h
    constructor
    · simp [AddSeqAsSchemaMeta, WrapOutput]
    · simp [AddSeqAsSchemaMeta, WrapOutput]

/-- Witness for C5: the concrete two-row parse with range 5..6. -/
theorem battery_parse_one_seq_column_spec_witness :
    pbSeq.batch.columns.head? =
        some { name := "bolson_seq", dtype := ArrowType.uint64,
               values := (seqValues bufSeq56.range).map ArrowValue.u64 } ∧
    (seqValues bufSeq56.range)[1]? = some (bufSeq56.range.first + 1) ∧
    pbMeta.batch.columns = [voltageColumn hwTwoRows] ∧
    pbMeta.batch.metadata =
      [("bolson_seq_first", toString bufSeq56.range.first),
       ("bolson_seq_last", toString bufSeq56.range.last)] :=
  ⟨((battery_parse_one_seq_column_spec hwTwoRows bufSeq56).1 pbSeq (by rfl)).1,
   ((battery_parse_one_seq_column_spec hwTwoRows bufSeq56).1 pbSeq
      (by rfl)).2.2 1 (by decide),
   ((battery_parse_one_seq_column_spec hwTwoRows bufSeq56).2 pbMeta (by rfl)).1,
   ((battery_parse_one_seq_column_spec hwTwoRows bufSeq56).2 pbMeta (by rfl)).2⟩

/-- C9 (amended): the fpga `BatteryParserContext::Make` rejects more
than 256 parser instances; on success it constructs exactly
`num_parsers` parser instances (necessarily at most 256); fpga
`BatteryParser::Init` fails for any parser index of 256 or more.  The
opae `BatteryParserContext::Make` bounds the parser count (at 255) only
when no AFU ID is supplied, and constructs no parsers itself. -/
theorem battery_parser_bounds :
    (∀ (env : FletcherEnv) (opts : FpgaBatteryOptions),
      opts.num_parsers > 256 →
      BatteryParserContext.Make env opts =
        Except.error (Status.err Error.FletcherError
          "Hardware does not allow more than 256 parser instances.")) ∧
    (∀ (env : FletcherEnv) (opts : FpgaBatteryOptions)
        (ctx : FpgaBatteryParserContext),
      BatteryParserContext.Make env opts = Except.ok ctx →
      ctx.parsers.length = opts.num_parsers ∧ opts.num_parsers ≤ 256) ∧
    (∀ (env : FletcherEnv) (p : FpgaBatteryParser), p.idx ≥ 256 →
      BatteryParser.Init env p =
        Except.error (Status.err Error.FletcherError
          "Hardware does not allow more than 256 parser instances.")) ∧
    (∀ (env : FletcherEnv) (opts : OpaeBatteryOptions),
      opts.afu_id.isEmpty = true → opts.num_parsers > 255 →
      OpaeBatteryParserContext.Make env opts =
        Except.error (Status.err Error.OpaeError
          "Auto-deriving AFU ID for number of parsers larger than 255 is not supported.")) ∧
    (∀ (env : FletcherEnv) (opts : OpaeBatteryOptions)
        (ctx : OpaeBatteryParserContext),
      OpaeBatteryParserContext.Make env opts = Except.ok ctx →
      ctx.parsers = []) := by
  refine ⟨?_, ?_, ?_, ?_, ?_⟩
  · intro env opts h
    simp [BatteryParserContext.Make, h]
  · intro env opts ctx h
    unfold BatteryParserContext.Make at h
    by_cases hn : opts.num_parsers > 256
    · rw [if_pos hn] at h; cases h
    · rw [if_neg hn] at h
      cases h1 : env.platformMakeOk with
      | false => simp [h1] at h
      | true =>
      cases h2 : env.platformInitOk with
      | false => simp [h1, h2] at h
      | true =>
      cases h3 : env.allocOk with
      | false => simp [h1, h2, h3] at h
      | true =>
      cases h4 : env.contextMakeOk with
      | false => simp [h1, h2, h3, h4] at h
      | true =>
      cases h5 : env.queueOk with
      | false => simp [h1, h2, h3, h4, h5] at h
      | true =>
      cases h6 : env.enableOk with
      | false => simp [h1, h2, h3, h4, h5, h6] at h
      | true =>
        simp [h1, h2, h3, h4, h5, h6] at h
        subst h
        simp [PrepareParsers]
        omega
  · intro env p h
    simp [BatteryParser.Init, h]
  · intro env opts h1 h2
    simp [OpaeBatteryParserContext.Make, h1, h2]
  · intro env opts ctx h
    unfold OpaeBatteryParserContext.Make at h
    by_cases hck : opts.afu_id.isEmpty ∧ opts.num_parsers > 255
    · rw [if_pos hck] at h; cases h
    · rw [if_neg hck] at h
      cases h1 : env.platformMakeOk with
      | false => simp [h1] at h
      | true =>
      cases h2 : env.platformInitOk with
      | false => simp [h1, h2] at h
      | true =>
        simp [h1, h2] at h
        subst h
        rfl

/-- Witness for C9's theorem: concrete applications of all five parts. -/
theorem battery_parser_bounds_witness :
    BatteryParserContext.Make fletcherAllOk
        { num_parsers := 257, seq_column := false } =
      Except.error (Status.err Error.FletcherError
        "Hardware does not allow more than 256 parser instances.") ∧
    (PrepareParsers 2 false).length = 2 ∧
    BatteryParser.Init fletcherAllOk
        { idx := 256, num_parsers := 300, seq_column := false } =
      Except.error (Status.err Error.FletcherError
        "Hardware does not allow more than 256 parser instances.") ∧
    OpaeBatteryParserContext.Make fletcherAllOk
        { num_parsers := 300, afu_id := "" } =
      Except.error (Status.err Error.OpaeError
        "Auto-deriving AFU ID for number of parsers larger than 255 is not supported.") ∧
    ({ num_parsers := 5, afu_id := "custom", parsers := [] } :
        OpaeBatteryParserContext).parsers = [] :=
  ⟨battery_parser_bounds.1 fletcherAllOk _ (by decide),
   (battery_parser_bounds.2.1 fletcherAllOk
      { num_parsers := 2, seq_column := false }
      { num_parsers := 2, seq_column := false, parsers := PrepareParsers 2 false }
      (by rfl)).1,
   battery_parser_bounds.2.2.1 fletcherAllOk _ (by decide),
   battery_parser_bounds.2.2.2.1 fletcherAllOk
      { num_parsers := 300, afu_id := "" } (by decide) (by decide),
   battery_parser_bounds.2.2.2.2 fletcherAllOk
      { num_parsers := 5, afu_id := "custom" }
      { num_parsers := 5, afu_id := "custom", parsers := [] } (by rfl)⟩

/-- Counterexample for C9 as stated: the opae
`BatteryParserContext::Make` accepts 257 parser instances when an AFU ID
is supplied — it returns OK, not an error, for a parser count above
256 (and constructs no parser instances at all). -/
theorem opae_battery_make_no_bound_check_cex :
    OpaeBatteryParserContext.Make fletcherAllOk
        { num_parsers := 257, afu_id := "afu" } =
      Except.ok { num_parsers := 257, afu_id := "afu", parsers := [] } := by
  rfl

/-- C10: a successful `OpaeAllocator::Allocate` yields a buffer of
exactly `opae_fixed_capacity` bytes, zero-initialized, for every
requested size; and `OpaeAllocator::Free` returns OK for every buffer
without touching the allocator state. -/
theorem opae_allocator_fixed_capacity (env : MmapEnv) (a : OpaeAllocator)
    (size : Nat) (a2 : OpaeAllocator) (buf : OpaeBuffer)
    (h : OpaeAllocator.Allocate env a size = Except.ok (a2, buf)) :
    buf.size = opae_fixed_capacity ∧
    (∀ i, i < buf.size → buf.byteAt i = 0) ∧
    (∀ (a3 : OpaeAllocator) (b : OpaeBuffer),
      OpaeAllocator.Free a3 b = (Status.ok, a3)) := by
  cases hm : env.mmapResult with
  | none => simp [OpaeAllocator.Allocate, hm] at h
  | some addr =>
    simp only [OpaeAllocator.Allocate, hm, Except.ok.injEq,
      Prod.mk.injEq] at h
    obtain ⟨-, rfl⟩ := h
    exact ⟨rfl, fun i _ => rfl, fun a3 b => rfl⟩

/-- Witness for C10: a concrete allocation of a requested 42 bytes still
produces the fixed one-gibibyte zeroed buffer, and `Free` is a no-op. -/
theorem opae_allocator_fixed_capacity_witness :
    bufGib.size = opae_fixed_capacity ∧
    (∀ i, i < bufGib.size → bufGib.byteAt i = 0) ∧
    (∀ (a3 : OpaeAllocator) (b : OpaeBuffer),
      OpaeAllocator.Free a3 b = (Status.ok, a3)) :=
  opae_allocator_fixed_capacity { mmapResult := some 0 } { allocations := [] }
    42 { allocations := [(0, opae_fixed_capacity)] } bufGib (by rfl)

end Bolson
